import Mathlib

/-!
A formal model of the crypto-signal pipeline: the data model, the indicator
engine, the signal scorer, the liquidation-snapshot generators, the advisory
validator and the orchestrator's sort/selection step, translated from the
TypeScript sources (`lib/types.ts`, `lib/utils.ts`, `lib/ai-analysis.ts` and
the API route handler).  Numeric fields are modelled as exact rationals and
integers; calls on external services are modelled by passing their outcome
(including every random draw) as an explicit parameter.
-/

namespace CryptoSignal

/-- `TrendDirection` from `lib/types.ts`. -/
inductive TrendDirection
  | LONG
  | SHORT
  | NEUTRAL
deriving DecidableEq, Repr

/-- The `bollingerBandBreakout` label: `"UP" | "DOWN" | "NONE"`. -/
inductive Breakout
  | UP
  | DOWN
  | NONE
deriving DecidableEq, Repr

/-- The `emaCrossover` label: `"BULLISH" | "BEARISH" | "NONE"`. -/
inductive Crossover
  | BULLISH
  | BEARISH
  | NONE
deriving DecidableEq, Repr

/-- The `liquidationSpike` label: `"LONG" | "SHORT" | "NONE"`. -/
inductive Spike
  | LONG
  | SHORT
  | NONE
deriving DecidableEq, Repr

/-- `NewsSentiment` from `lib/types.ts`. -/
inductive NewsSentiment
  | BULLISH
  | BEARISH
  | NEUTRAL
deriving DecidableEq, Repr

/-- News impact label: `"HIGH" | "MEDIUM" | "LOW"`. -/
inductive Impact
  | HIGH
  | MEDIUM
  | LOW
deriving DecidableEq, Repr

/-- Risk level of `AIAnalysis.riskAssessment`. -/
inductive RiskLevel
  | LOW
  | MEDIUM
  | HIGH
  | EXTREME
deriving DecidableEq, Repr

/-- The closed enumeration of signal categories declared by the `signal`
field of `SignalOutput` in `lib/types.ts` (seven string literals). -/
inductive SignalKind
  | reversalLong
  | reversalShort
  | longGoing
  | shortGoing
  | longRisky
  | shortRisky
  | noSignal
deriving DecidableEq, Repr, Fintype

/-- The exact string literal of each `SignalOutput.signal` variant. -/
def SignalKind.text : SignalKind → String
  | .reversalLong => "🔁 REVERSAL STARTED - LONG"
  | .reversalShort => "🔁 REVERSAL STARTED - SHORT"
  | .longGoing => "📈 LONG GOING"
  | .shortGoing => "📉 SHORT GOING"
  | .longRisky => "⚠️ LONG RISKY TODAY"
  | .shortRisky => "⚠️ SHORT RISKY TODAY"
  | .noSignal => "⚪ NO SIGNAL (STAY AWAY)"

/-- `signal.includes(needle)` of JavaScript: substring containment on the
category's string literal. -/
def SignalKind.includes (k : SignalKind) (needle : String) : Bool :=
  decide (needle.toList <:+: k.text.toList)

/-- `BinanceData` from `lib/types.ts` (the MarketSnapshot). -/
structure BinanceData where
  coin : String
  currentPrice : ℚ
  volume : ℚ
  openInterest : ℚ
  fundingRate : ℚ
  longShortRatio : ℚ
  deltaVolume : ℚ
  trend5min : TrendDirection
  trend15min : TrendDirection
  bollingerBandBreakout : Breakout
  emaCrossover : Crossover
deriving DecidableEq, Repr

/-- `CoinglassData` from `lib/types.ts` (the LiquidationSnapshot). -/
structure CoinglassData where
  coin : String
  totalLiquidations1h : ℚ
  longLiquidations1h : ℚ
  shortLiquidations1h : ℚ
  totalLiquidations4h : ℚ
  longLiquidations4h : ℚ
  shortLiquidations4h : ℚ
  totalLiquidations24h : ℚ
  longLiquidations24h : ℚ
  shortLiquidations24h : ℚ
  liquidationSpike : Spike
deriving DecidableEq, Repr

/-- `NewsItem` from `lib/types.ts`. -/
structure NewsItem where
  title : String
  summary : String
  url : String
  publishedAt : String
  sentiment : NewsSentiment
  impact : Impact
  relevantCoins : List String
deriving DecidableEq, Repr

/-- The `signalValidation` component of `AIAnalysis`. -/
structure SignalValidation where
  isValid : Bool
  confidence : ℤ
  reasoning : String
  suggestedAction : String
deriving DecidableEq, Repr

/-- The `newsAnalysis` component of `AIAnalysis`. -/
structure NewsAnalysis where
  overallSentiment : NewsSentiment
  keyNews : List NewsItem
  marketContext : String
deriving DecidableEq, Repr

/-- The `riskAssessment` component of `AIAnalysis`. -/
structure RiskAssessment where
  level : RiskLevel
  factors : List String
  warnings : List String
deriving DecidableEq, Repr

/-- `AIAnalysis` from `lib/types.ts` (the AdvisoryAnalysis). -/
structure AIAnalysis where
  signalValidation : SignalValidation
  newsAnalysis : NewsAnalysis
  riskAssessment : RiskAssessment
deriving DecidableEq, Repr

/-- `SignalOutput` from `lib/types.ts`.  Confidence is an integer because
every value the scorer assigns to it is one. -/
structure SignalOutput where
  coin : String
  currentPrice : ℚ
  signal : SignalKind
  confidence : ℤ
  trendSummary : List String
  suggestedAction : String
  aiAnalysis : Option AIAnalysis := none
deriving DecidableEq, Repr

/-- `sma20` of `calculateBollingerBreakout` in `lib/utils.ts`: the mean of all
closes passed in (the route fetches klines with `limit=20`). -/
def sma20 (closes : List ℚ) : ℚ :=
  closes.sum / closes.length

/-- The `variance` local of `calculateBollingerBreakout`: the population
variance of the closes about `sma20`. -/
def variance20 (closes : List ℚ) : ℚ :=
  (closes.map (fun close => (close - sma20 closes) ^ 2)).sum / closes.length

/-- `calculateBollingerBreakout` from `lib/utils.ts`, on the list of closing
prices (`klines.map(k => parseFloat(k[4]))`).  The source compares the last
close against `sma20 ± 2 * Math.sqrt(variance)`; since the variance is
nonnegative, `price > sma + 2·σ` holds exactly when `price - sma` is positive
and its square exceeds `4 · variance`, which keeps the definition inside ℚ.
`bollinger_eq_sqrt_bands` below proves this equivalence against the
square-root form over ℝ. -/
def calculateBollingerBreakout (closes : List ℚ) : Breakout :=
  if closes.length < 20 then .NONE
  else
    let sma := sma20 closes
    let v := variance20 closes
    let currentPrice := closes.getLast?.getD 0
    if 0 < currentPrice - sma ∧ 4 * v < (currentPrice - sma) ^ 2 then .UP
    else if 0 < sma - currentPrice ∧ 4 * v < (sma - currentPrice) ^ 2 then .DOWN
    else .NONE

/-- The `liqRatio` computation shared by `generateSignal`,
`getRealCoinglassData` and `generateEnhancedMockCoinglassData`:
`long / Math.max(short, 1)`. -/
def liqRatio1h (longLiq shortLiq : ℚ) : ℚ :=
  longLiq / max shortLiq 1

/-- The `liquidationRatio` local of `generateSignal` in `lib/utils.ts`. -/
def liquidationRatio (c : CoinglassData) : ℚ :=
  liqRatio1h c.longLiquidations1h c.shortLiquidations1h

/-- The `bullishSignals` boolean array of `generateSignal`. -/
def bullishSignals (b : BinanceData) (c : CoinglassData) : List Bool :=
  [decide (b.trend5min = .LONG),
   decide (b.trend15min = .LONG),
   decide (b.bollingerBandBreakout = .UP),
   decide (b.emaCrossover = .BULLISH),
   decide (b.fundingRate < -0.01),
   decide (b.longShortRatio < 0.8),
   decide (c.liquidationSpike = .SHORT),
   decide (liquidationRatio c < 0.5)]

/-- The `bearishSignals` boolean array of `generateSignal`. -/
def bearishSignals (b : BinanceData) (c : CoinglassData) : List Bool :=
  [decide (b.trend5min = .SHORT),
   decide (b.trend15min = .SHORT),
   decide (b.bollingerBandBreakout = .DOWN),
   decide (b.emaCrossover = .BEARISH),
   decide (0.01 < b.fundingRate),
   decide (1.2 < b.longShortRatio),
   decide (c.liquidationSpike = .LONG),
   decide (2 < liquidationRatio c)]

/-- `bullishSignals.filter(Boolean).length`. -/
def bullishCount (b : BinanceData) (c : CoinglassData) : ℕ :=
  (bullishSignals b c).count true

/-- `bearishSignals.filter(Boolean).length`. -/
def bearishCount (b : BinanceData) (c : CoinglassData) : ℕ :=
  (bearishSignals b c).count true

/-- The category/confidence if-chain of `generateSignal` (`lib/utils.ts`,
before the sentiment adjustment). -/
def signalBase (bull bear : ℕ) : SignalKind × ℤ :=
  if 5 ≤ bull then (.reversalLong, min 95 (60 + bull * 5))
  else if 3 ≤ bull then (.longGoing, min 85 (50 + bull * 7))
  else if 5 ≤ bear then (.reversalShort, min 95 (60 + bear * 5))
  else if 3 ≤ bear then (.shortGoing, min 85 (50 + bear * 7))
  else if bull = 2 then (.shortRisky, 40)
  else if bear = 2 then (.longRisky, 40)
  else (.noSignal, 0)

/-- The four sentiment adjustments of `generateSignal` followed by the final
clamp `Math.max(0, Math.min(100, confidence))`. -/
def adjustConfidence (newsSentiment : NewsSentiment) (k : SignalKind) (conf : ℤ) : ℤ :=
  let c1 := if newsSentiment = .BULLISH ∧ k.includes "LONG" then conf + 10 else conf
  let c2 := if newsSentiment = .BEARISH ∧ k.includes "SHORT" then c1 + 10 else c1
  let c3 := if newsSentiment = .BULLISH ∧ k.includes "SHORT" then c2 - 10 else c2
  let c4 := if newsSentiment = .BEARISH ∧ k.includes "LONG" then c3 - 10 else c3
  max 0 (min 100 c4)

/-- The six bullish trend-summary pushes of `generateSignal`, in source
order, as (condition, fact) pairs. -/
def bullishFactTable (b : BinanceData) (c : CoinglassData) : List (Bool × String) :=
  [(decide (b.trend5min = .LONG), "5min uptrend active"),
   (decide (b.trend15min = .LONG), "15min uptrend active"),
   (decide (b.bollingerBandBreakout = .UP), "Bollinger upper band breakout"),
   (decide (b.emaCrossover = .BULLISH), "EMA bullish crossover"),
   (decide (c.liquidationSpike = .SHORT), "Short liquidation spike detected"),
   (decide (b.fundingRate < -0.01), "Negative funding rate (shorts paying)")]

/-- The six bearish trend-summary pushes of `generateSignal`, in source
order. -/
def bearishFactTable (b : BinanceData) (c : CoinglassData) : List (Bool × String) :=
  [(decide (b.trend5min = .SHORT), "5min downtrend active"),
   (decide (b.trend15min = .SHORT), "15min downtrend active"),
   (decide (b.bollingerBandBreakout = .DOWN), "Bollinger lower band breakout"),
   (decide (b.emaCrossover = .BEARISH), "EMA bearish crossover"),
   (decide (c.liquidationSpike = .LONG), "Long liquidation spike detected"),
   (decide (0.01 < b.fundingRate), "Positive funding rate (longs paying)")]

/-- The bullish block of `trendSummary` pushes, translated push by push. -/
def bullishFacts (b : BinanceData) (c : CoinglassData) : List String :=
  (if b.trend5min = .LONG then ["5min uptrend active"] else []) ++
  (if b.trend15min = .LONG then ["15min uptrend active"] else []) ++
  (if b.bollingerBandBreakout = .UP then ["Bollinger upper band breakout"] else []) ++
  (if b.emaCrossover = .BULLISH then ["EMA bullish crossover"] else []) ++
  (if c.liquidationSpike = .SHORT then ["Short liquidation spike detected"] else []) ++
  (if b.fundingRate < -0.01 then ["Negative funding rate (shorts paying)"] else [])

/-- The bearish block of `trendSummary` pushes, translated push by push. -/
def bearishFacts (b : BinanceData) (c : CoinglassData) : List String :=
  (if b.trend5min = .SHORT then ["5min downtrend active"] else []) ++
  (if b.trend15min = .SHORT then ["15min downtrend active"] else []) ++
  (if b.bollingerBandBreakout = .DOWN then ["Bollinger lower band breakout"] else []) ++
  (if b.emaCrossover = .BEARISH then ["EMA bearish crossover"] else []) ++
  (if c.liquidationSpike = .LONG then ["Long liquidation spike detected"] else []) ++
  (if 0.01 < b.fundingRate then ["Positive funding rate (longs paying)"] else [])

/-- The suggested-action template of `generateSignal`, computed from the
category and the already-adjusted confidence. -/
def suggestedActionFor (k : SignalKind) (confidence : ℤ) : String :=
  if k.includes "REVERSAL" ∧ 70 < confidence then
    "High confidence " ++ (if k.includes "LONG" then "LONG" else "SHORT") ++
      " setup. Consider entry with tight stop loss."
  else if k.includes "GOING" ∧ 60 < confidence then
    "Trend continuation " ++ (if k.includes "LONG" then "LONG" else "SHORT") ++
      ". Follow trend with proper risk management."
  else if k.includes "RISKY" then
    (if k.includes "LONG" then "Long" else "Short") ++
      " positions risky today. Consider opposite direction or wait."
  else "No clear direction. Wait for better setup."

/-- `generateSignal` from `lib/utils.ts`: the rule-based scorer. -/
def generateSignal (binanceData : BinanceData) (coinglassData : CoinglassData)
    (newsSentiment : NewsSentiment) : SignalOutput :=
  let bull := bullishCount binanceData coinglassData
  let bear := bearishCount binanceData coinglassData
  let base := signalBase bull bear
  let confidence := adjustConfidence newsSentiment base.1 base.2
  { coin := binanceData.coin
    currentPrice := binanceData.currentPrice
    signal := base.1
    confidence := confidence
    trendSummary := bullishFacts binanceData coinglassData ++
      bearishFacts binanceData coinglassData
    suggestedAction := suggestedActionFor base.1 confidence
    aiAnalysis := none }

/-- The spike classification of `getRealCoinglassData` (`lib/utils.ts`,
"Enhanced liquidation spike detection"): applied to whatever 1h base figures
the three fallback tiers produced. -/
def liqSpikeReal (longLiq1h shortLiq1h : ℚ) : Spike :=
  let totalLiq1h := longLiq1h + shortLiq1h
  let liqRatio := liqRatio1h longLiq1h shortLiq1h
  if 500000 < totalLiq1h then
    if 1000000 < longLiq1h ∧ 2.5 < liqRatio then .LONG
    else if 1000000 < shortLiq1h ∧ liqRatio < 0.4 then .SHORT
    else .NONE
  else .NONE

/-- The snapshot `getRealCoinglassData` returns on its normal (non-exception)
path, as a function of the 1h base figures established by its fallback tiers
and of the four uniform draws `getRandom(3.8, 4.2)` / `getRandom(22, 26)`
used to extrapolate the 4h and 24h legs. -/
def realCoinglassSnapshot (coin : String) (longLiq1h shortLiq1h r4L r4S r24L r24S : ℚ) :
    CoinglassData :=
  let longLiq4h := longLiq1h * r4L
  let shortLiq4h := shortLiq1h * r4S
  let longLiq24h := longLiq1h * r24L
  let shortLiq24h := shortLiq1h * r24S
  { coin := coin
    totalLiquidations1h := longLiq1h + shortLiq1h
    longLiquidations1h := longLiq1h
    shortLiquidations1h := shortLiq1h
    totalLiquidations4h := longLiq4h + shortLiq4h
    longLiquidations4h := longLiq4h
    shortLiquidations4h := shortLiq4h
    totalLiquidations24h := longLiq24h + shortLiq24h
    longLiquidations24h := longLiq24h
    shortLiquidations24h := shortLiq24h
    liquidationSpike := liqSpikeReal longLiq1h shortLiq1h }

/-- The "intelligent spike detection" of `generateEnhancedMockCoinglassData`:
volume floor `totalLiq > baseLiquidation * 2`, then ratio tests only. -/
def enhancedMockSpike (baseLiquidation longLiq1h shortLiq1h : ℚ) : Spike :=
  let liqRatio := liqRatio1h longLiq1h shortLiq1h
  let totalLiq := longLiq1h + shortLiq1h
  if baseLiquidation * 2 < totalLiq then
    if 2.5 < liqRatio then .LONG
    else if liqRatio < 0.4 then .SHORT
    else .NONE
  else .NONE

/-- `generateEnhancedMockCoinglassData` from `lib/utils.ts` (the fallback the
`catch` of `getRealCoinglassData` returns), as a function of its numeric
draws: in the source `baseLiquidation = Math.log(basePrice + 1) * 50000 *
getRandom(0.5, 2.0)`, `u1, u2` are the `getRandom(0.3, 1.8)` draws for the 1h
legs, and the 4h/24h draws come from `getRandom(3.2, 4.8)` and
`getRandom(18, 28)`. -/
def generateEnhancedMockCoinglassData (coin : String)
    (baseLiquidation u1 u2 r4L r4S r24L r24S : ℚ) : CoinglassData :=
  let longLiq1h := baseLiquidation * u1
  let shortLiq1h := baseLiquidation * u2
  let longLiq4h := longLiq1h * r4L
  let shortLiq4h := shortLiq1h * r4S
  let longLiq24h := longLiq1h * r24L
  let shortLiq24h := shortLiq1h * r24S
  { coin := coin
    totalLiquidations1h := longLiq1h + shortLiq1h
    longLiquidations1h := longLiq1h
    shortLiquidations1h := shortLiq1h
    totalLiquidations4h := longLiq4h + shortLiq4h
    longLiquidations4h := longLiq4h
    shortLiquidations4h := shortLiq4h
    totalLiquidations24h := longLiq24h + shortLiq24h
    longLiquidations24h := longLiq24h
    shortLiquidations24h := shortLiq24h
    liquidationSpike := enhancedMockSpike baseLiquidation longLiq1h shortLiq1h }

/-- `getMockCoinglassData` from `lib/utils.ts`: every numeric field is an
independent `getRandom` draw (totals are NOT derived from the legs), and the
spike label is an independent random choice; all draws are passed in as
parameters. -/
def getMockCoinglassData (coin : String) (t1 l1 s1 t4 l4 s4 t24 l24 s24 : ℚ)
    (spikeDraw : Spike) : CoinglassData :=
  { coin := coin
    totalLiquidations1h := t1
    longLiquidations1h := l1
    shortLiquidations1h := s1
    totalLiquidations4h := t4
    longLiquidations4h := l4
    shortLiquidations4h := s4
    totalLiquidations24h := t24
    longLiquidations24h := l24
    shortLiquidations24h := s24
    liquidationSpike := spikeDraw }

/-- The outcome of the advisory provider call inside `analyzeSignalWithAI`:
either a successfully parsed `AIAnalysis`, or any call/parse failure (thrown
request, empty response, malformed JSON), which the source's `catch`
converts into the local fallback. -/
inductive AIOutcome
  | ok (analysis : AIAnalysis)
  | failed
deriving DecidableEq, Repr

/-- The deterministic local fallback analysis built by the `catch` branch of
`analyzeSignalWithAI` (`lib/ai-analysis.ts`). -/
def fallbackAnalysis (signal : SignalOutput) (news : List NewsItem) : AIAnalysis :=
  { signalValidation :=
      { isValid := decide (70 ≤ signal.confidence)
        confidence := signal.confidence
        reasoning := "Technical analysis based on price action and volume indicators"
        suggestedAction := signal.suggestedAction }
    newsAnalysis :=
      { overallSentiment := .NEUTRAL
        keyNews := news
        marketContext := "Market sentiment analysis unavailable" }
    riskAssessment :=
      { level :=
          if signal.confidence < 50 then .HIGH
          else if signal.confidence < 70 then .MEDIUM
          else .LOW
        factors := ["Technical indicators", "Market volatility"]
        warnings := if signal.confidence < 70 then ["Low confidence signal"] else [] } }

/-- `analyzeSignalWithAI` from `lib/ai-analysis.ts`.  `hasClient` is whether
`initializeOpenAI()` yielded a client (an API key is configured and the
dynamic import succeeded); `aiAnalysisEnabled` is `config.analysis.
aiAnalysisEnabled`; `outcome` is the result of the external call.  On a
parsed response the news list is attached verbatim
(`aiAnalysis.newsAnalysis.keyNews = news`). -/
def analyzeSignalWithAI (hasClient aiAnalysisEnabled : Bool) (outcome : AIOutcome)
    (signal : SignalOutput) (news : List NewsItem) : Option AIAnalysis :=
  if !hasClient || !aiAnalysisEnabled then none
  else
    match outcome with
    | .ok analysis =>
        some { analysis with newsAnalysis := { analysis.newsAnalysis with keyNews := news } }
    | .failed => some (fallbackAnalysis signal news)

/-- `a.aiAnalysis?.signalValidation.isValid` coerced to a boolean, as the
route's sort comparator and the `aiValidatedSignals` filter use it. -/
def aiValid (s : SignalOutput) : Bool :=
  match s.aiAnalysis with
  | some analysis => analysis.signalValidation.isValid
  | none => false

/-- The sort comparator of the full-universe route handler
(`signals.sort((a, b) => ...)`). -/
def signalCmp (a b : SignalOutput) : ℤ :=
  if aiValid a ∧ ¬ aiValid b then -1
  else if ¬ aiValid a ∧ aiValid b then 1
  else if a.signal = .noSignal ∧ b.signal ≠ .noSignal then 1
  else if b.signal = .noSignal ∧ a.signal ≠ .noSignal then -1
  else b.confidence - a.confidence

/-- The route's in-place `signals.sort(...)`, modelled as a merge sort by the
comparator (JavaScript's sort returns a permutation ordered by a consistent
comparator). -/
def sortSignals (signals : List SignalOutput) : List SignalOutput :=
  signals.mergeSort (fun a b => decide (signalCmp a b ≤ 0))

/-- The final selection of the route: `highConfidenceSignals` when at least
ten signals reach confidence 70, otherwise the first 25 of the sorted list. -/
def finalSignals (signals : List SignalOutput) : List SignalOutput :=
  let sorted := sortSignals signals
  let highConfidenceSignals := sorted.filter (fun s => decide (70 ≤ s.confidence))
  if 10 ≤ highConfidenceSignals.length then highConfidenceSignals
  else sorted.take 25

/-- The sort order the spec claims for the route: advisory-validated-and-valid
first, then non-"NO SIGNAL" categories, then confidence descending
(lexicographically). -/
def specSignalLe (a b : SignalOutput) : Prop :=
  (aiValid a = true ∧ aiValid b = false) ∨
  (aiValid a = aiValid b ∧
    ((a.signal ≠ .noSignal ∧ b.signal = .noSignal) ∨
     (decide (a.signal = .noSignal) = decide (b.signal = .noSignal) ∧
      b.confidence ≤ a.confidence)))

/-- A market snapshot satisfying exactly six bullish criteria (both trends
LONG, breakout UP, crossover BULLISH, funding −0.02, long/short ratio 0.7)
and no bearish criterion: the scorer scenario of the spec. -/
def exampleBullishMarket : BinanceData :=
  { coin := "BTCUSDT", currentPrice := 100, volume := 0, openInterest := 0,
    fundingRate := -0.02, longShortRatio := 0.7, deltaVolume := 0,
    trend5min := .LONG, trend15min := .LONG,
    bollingerBandBreakout := .UP, emaCrossover := .BULLISH }

/-- A liquidation snapshot with balanced 1h legs (ratio 1) and no spike, so
that it contributes no criterion in either direction. -/
def exampleBalancedLiquidation : CoinglassData :=
  { coin := "BTCUSDT", totalLiquidations1h := 2000, longLiquidations1h := 1000,
    shortLiquidations1h := 1000, totalLiquidations4h := 8000,
    longLiquidations4h := 4000, shortLiquidations4h := 4000,
    totalLiquidations24h := 48000, longLiquidations24h := 24000,
    shortLiquidations24h := 24000, liquidationSpike := .NONE }

/-- C1: the scorer assigns category and base confidence by the first matching
rule of the priority chain (bullCount ≥ 5, bullCount ≥ 3, bearCount ≥ 5,
bearCount ≥ 3, bullCount = 2, bearCount = 2, else no signal) with the stated
confidence formulas; a bullish count of 6 yields "REVERSAL STARTED - LONG"
with base confidence min(95, 60 + 5·6) = 90, as the concrete six-criterion
snapshot (scored under NEUTRAL sentiment, which adjusts nothing) exhibits. -/
theorem scorer_priority_rules :
    (∀ (b : BinanceData) (c : CoinglassData) (s : NewsSentiment),
      (generateSignal b c s).signal =
        (if 5 ≤ bullishCount b c then SignalKind.reversalLong
         else if 3 ≤ bullishCount b c then SignalKind.longGoing
         else if 5 ≤ bearishCount b c then SignalKind.reversalShort
         else if 3 ≤ bearishCount b c then SignalKind.shortGoing
         else if bullishCount b c = 2 then SignalKind.shortRisky
         else if bearishCount b c = 2 then SignalKind.longRisky
         else SignalKind.noSignal)) ∧
    (∀ bull bear : ℕ,
      (signalBase bull bear).2 =
        (if 5 ≤ bull then min 95 (60 + (bull : ℤ) * 5)
         else if 3 ≤ bull then min 85 (50 + (bull : ℤ) * 7)
         else if 5 ≤ bear then min 95 (60 + (bear : ℤ) * 5)
         else if 3 ≤ bear then min 85 (50 + (bear : ℤ) * 7)
         else if bull = 2 then 40
         else if bear = 2 then 40
         else 0)) ∧
    (∀ bear : ℕ, signalBase 6 bear = (SignalKind.reversalLong, 90)) ∧
    bullishCount exampleBullishMarket exampleBalancedLiquidation = 6 ∧
    (generateSignal exampleBullishMarket exampleBalancedLiquidation .NEUTRAL).signal =
      SignalKind.reversalLong ∧
    (generateSignal exampleBullishMarket exampleBalancedLiquidation .NEUTRAL).confidence = 90 := by
  refine ⟨?_, ?_, ?_, ?_, ?_, ?_⟩
  · intro b c s
    simp only [generateSignal, signalBase]
    split_ifs <;> rfl
  · intro bull bear
    simp only [signalBase]
    split_ifs <;> rfl
  · intro bear
    simp only [signalBase]
    norm_num
  · norm_num [bullishCount, bullishSignals, liquidationRatio, liqRatio1h,
      exampleBullishMarket, exampleBalancedLiquidation] <;> decide
  · norm_num [generateSignal, bullishCount, bullishSignals, bearishCount, bearishSignals,
      liquidationRatio, liqRatio1h, exampleBullishMarket, exampleBalancedLiquidation,
      signalBase] <;> decide
  · norm_num [generateSignal, bullishCount, bullishSignals, bearishCount, bearishSignals,
      liquidationRatio, liqRatio1h, exampleBullishMarket, exampleBalancedLiquidation,
      signalBase, adjustConfidence] <;> decide

/-- C2 counterexample: the `signal` field of `SignalOutput` is a closed
enumeration of SEVEN string literals, not nine as the claim states. -/
theorem signal_enumeration_has_seven_values :
    Fintype.card SignalKind = 7 ∧ Fintype.card SignalKind ≠ 9 := by
  constructor <;> decide

/-- C2 (amended to the actual size of the enumeration): every Signal the
scorer produces, after the ±10 sentiment adjustment and the final clamp, has
an integer confidence (the model's confidence field lives in ℤ because every
assigned value is an integer) within [0, 100], and a category in the closed
seven-value enumeration of `SignalOutput.signal`. -/
theorem scorer_confidence_in_range (b : BinanceData) (c : CoinglassData)
    (s : NewsSentiment) :
    0 ≤ (generateSignal b c s).confidence ∧
    (generateSignal b c s).confidence ≤ 100 ∧
    (generateSignal b c s).signal ∈ (Finset.univ : Finset SignalKind) ∧
    Fintype.card SignalKind = 7 := by
  refine ⟨?_, ?_, Finset.mem_univ _, by decide⟩ <;>
    · simp only [generateSignal, adjustConfidence]
      omega

/-- The route's comparator returns a nonpositive value exactly when the pair
is in the claimed lexicographic order: advisory-validated-and-valid first,
then non-"NO SIGNAL" categories, then confidence descending. -/
theorem signalCmp_nonpos_iff (a b : SignalOutput) :
    signalCmp a b ≤ 0 ↔ specSignalLe a b := by
  unfold signalCmp specSignalLe
  by_cases ha : aiValid a = true <;> by_cases hb : aiValid b = true <;>
    by_cases na : a.signal = SignalKind.noSignal <;>
    by_cases nb : b.signal = SignalKind.noSignal <;>
    simp [ha, hb, na, nb, Bool.not_eq_true] at * <;> omega

/-- Transitivity of the comparator's nonpositive relation. -/
theorem signalCmp_trans (a b c : SignalOutput) (hab : signalCmp a b ≤ 0)
    (hbc : signalCmp b c ≤ 0) : signalCmp a c ≤ 0 := by
  unfold signalCmp at *
  by_cases ha : aiValid a = true <;> by_cases hb : aiValid b = true <;>
    by_cases hc : aiValid c = true <;>
    by_cases na : a.signal = SignalKind.noSignal <;>
    by_cases nb : b.signal = SignalKind.noSignal <;>
    by_cases nc : c.signal = SignalKind.noSignal <;>
    simp [ha, hb, hc, na, nb, nc, Bool.not_eq_true] at * <;> omega

/-- Totality of the comparator's nonpositive relation. -/
theorem signalCmp_total (a b : SignalOutput) :
    signalCmp a b ≤ 0 ∨ signalCmp b a ≤ 0 := by
  unfold signalCmp
  by_cases ha : aiValid a = true <;> by_cases hb : aiValid b = true <;>
    by_cases na : a.signal = SignalKind.noSignal <;>
    by_cases nb : b.signal = SignalKind.noSignal <;>
    simp [ha, hb, na, nb, Bool.not_eq_true] <;> omega

/-- C3: the full-universe route's output list is a permutation of its input
ordered by (advisory-validated-and-valid, non-"NO SIGNAL" category,
confidence descending) lexicographically, and the final selection is the
confidence ≥ 70 sublist when it has at least ten entries, otherwise the
first 25 of the sorted list. -/
theorem route_sort_and_selection (signals : List SignalOutput) :
    (sortSignals signals).Perm signals ∧
    (sortSignals signals).Pairwise specSignalLe ∧
    ((sortSignals signals).filter (fun s => decide (70 ≤ s.confidence))).Perm
      (signals.filter (fun s => decide (70 ≤ s.confidence))) ∧
    finalSignals signals =
      (if 10 ≤ ((sortSignals signals).filter (fun s => decide (70 ≤ s.confidence))).length
       then (sortSignals signals).filter (fun s => decide (70 ≤ s.confidence))
       else (sortSignals signals).take 25) := by
  have hperm : (sortSignals signals).Perm signals := List.mergeSort_perm _ _
  refine ⟨hperm, ?_, hperm.filter _, rfl⟩
  have hs := @List.sorted_mergeSort SignalOutput (fun a b => decide (signalCmp a b ≤ 0))
    (fun a b c h₁ h₂ => by
      simp only [decide_eq_true_eq] at *
      exact signalCmp_trans a b c h₁ h₂)
    (fun a b => by
      simp only [Bool.or_eq_true, decide_eq_true_eq]
      exact signalCmp_total a b)
    signals
  exact hs.imp (fun h => (signalCmp_nonpos_iff _ _).1 (by simpa using h))

/-- C4 counterexample: the catch-path fallback generator
`generateEnhancedMockCoinglassData` does not classify spikes by the claimed
rule.  With base liquidation 1,000,000 and 1h draws 1.5 and 0.3 (both inside
the generator's `getRandom(0.3, 1.8)` range), the 1h legs are 1,500,000 long
and 300,000 short: total 1.8M exceeds the $500k floor, the long leg exceeds
$1M and the ratio is 5 > 2.5, so the claim requires the label LONG — but the
generator's own floor is `total > 2 × base = 2M`, so it returns NONE. -/
theorem enhanced_mock_spike_refutes_claimed_rule :
    ((0.3 : ℚ) ≤ 1.5 ∧ (1.5 : ℚ) ≤ 1.8 ∧ (0.3 : ℚ) ≤ 0.3 ∧ (0.3 : ℚ) ≤ 1.8) ∧
    (generateEnhancedMockCoinglassData "BTCUSDT" 1000000 1.5 0.3 4 4 24 24).longLiquidations1h
      = 1500000 ∧
    (generateEnhancedMockCoinglassData "BTCUSDT" 1000000 1.5 0.3 4 4 24 24).shortLiquidations1h
      = 300000 ∧
    (500000 : ℚ) < 1500000 + 300000 ∧ (1000000 : ℚ) < 1500000 ∧
    (2.5 : ℚ) < liqRatio1h 1500000 300000 ∧
    (generateEnhancedMockCoinglassData "BTCUSDT" 1000000 1.5 0.3 4 4 24 24).liquidationSpike
      = Spike.NONE := by
  norm_num [generateEnhancedMockCoinglassData, enhancedMockSpike, liqRatio1h]

/-- C4 (amended to the fetcher's non-exception path): the spike label that
`getRealCoinglassData` attaches to the 1h figures established by any of its
three fallback tiers is LONG exactly when total 1h > $500k, long 1h > $1M
and the long/short ratio > 2.5; SHORT exactly when total 1h > $500k,
short 1h > $1M and the ratio < 0.4; NONE otherwise.  In particular
long = 2,000,000 and short = 400,000 is labelled LONG.  (The catch-path mock
generator instead uses a `2 × base liquidation` floor and ratio tests only.) -/
theorem real_spike_classification (longLiq shortLiq : ℚ) :
    (liqSpikeReal longLiq shortLiq = Spike.LONG ↔
      (500000 < longLiq + shortLiq ∧ 1000000 < longLiq ∧
        2.5 < liqRatio1h longLiq shortLiq)) ∧
    (liqSpikeReal longLiq shortLiq = Spike.SHORT ↔
      (500000 < longLiq + shortLiq ∧ 1000000 < shortLiq ∧
        liqRatio1h longLiq shortLiq < 0.4)) ∧
    (∀ r4L r4S r24L r24S : ℚ,
      (realCoinglassSnapshot "BTCUSDT" longLiq shortLiq r4L r4S r24L r24S).liquidationSpike =
        liqSpikeReal longLiq shortLiq) ∧
    liqSpikeReal 2000000 400000 = Spike.LONG := by
  refine ⟨?_, ?_, fun _ _ _ _ => rfl, by norm_num [liqSpikeReal, liqRatio1h]⟩
  · unfold liqSpikeReal
    dsimp only
    split_ifs with h1 h2 h3 <;> simp_all
  · unfold liqSpikeReal
    dsimp only
    split_ifs with h1 h2 h3 <;> simp_all
    intro _
    linarith [h2.2]

/-- C5 counterexample: `getMockCoinglassData` draws every total
independently of the legs; with total 1h drawn at 200,000 and both legs at
50,000 (all inside the generator's documented `getRandom` ranges) the sum
invariant fails at the 1h horizon. -/
theorem mock_snapshot_total_not_sum :
    ((100000 : ℚ) ≤ 200000 ∧ (200000 : ℚ) ≤ 20000000 ∧
      (50000 : ℚ) ≤ 50000 ∧ (50000 : ℚ) ≤ 10000000) ∧
    (getMockCoinglassData "BTCUSDT" 200000 50000 50000 500000 250000 250000
        1000000 500000 500000 Spike.NONE).totalLiquidations1h ≠
      (getMockCoinglassData "BTCUSDT" 200000 50000 50000 500000 250000 250000
        1000000 500000 500000 Spike.NONE).longLiquidations1h +
      (getMockCoinglassData "BTCUSDT" 200000 50000 50000 500000 250000 250000
        1000000 500000 500000 Spike.NONE).shortLiquidations1h := by
  norm_num [getMockCoinglassData]

/-- C5 (amended to the two generators that derive totals): every snapshot
built by `getRealCoinglassData` or by `generateEnhancedMockCoinglassData`
satisfies total = long + short exactly at each of the 1h, 4h and 24h
horizons; the basic `getMockCoinglassData` draws its totals independently
and violates the invariant. -/
theorem snapshot_totals_are_sums (coin : String)
    (longLiq1h shortLiq1h r4L r4S r24L r24S base u1 u2 m4L m4S m24L m24S : ℚ) :
    ((realCoinglassSnapshot coin longLiq1h shortLiq1h r4L r4S r24L r24S).totalLiquidations1h =
      (realCoinglassSnapshot coin longLiq1h shortLiq1h r4L r4S r24L r24S).longLiquidations1h +
      (realCoinglassSnapshot coin longLiq1h shortLiq1h r4L r4S r24L r24S).shortLiquidations1h) ∧
    ((realCoinglassSnapshot coin longLiq1h shortLiq1h r4L r4S r24L r24S).totalLiquidations4h =
      (realCoinglassSnapshot coin longLiq1h shortLiq1h r4L r4S r24L r24S).longLiquidations4h +
      (realCoinglassSnapshot coin longLiq1h shortLiq1h r4L r4S r24L r24S).shortLiquidations4h) ∧
    ((realCoinglassSnapshot coin longLiq1h shortLiq1h r4L r4S r24L r24S).totalLiquidations24h =
      (realCoinglassSnapshot coin longLiq1h shortLiq1h r4L r4S r24L r24S).longLiquidations24h +
      (realCoinglassSnapshot coin longLiq1h shortLiq1h r4L r4S r24L r24S).shortLiquidations24h) ∧
    ((generateEnhancedMockCoinglassData coin base u1 u2 m4L m4S m24L m24S).totalLiquidations1h =
      (generateEnhancedMockCoinglassData coin base u1 u2 m4L m4S m24L m24S).longLiquidations1h +
      (generateEnhancedMockCoinglassData coin base u1 u2 m4L m4S m24L m24S).shortLiquidations1h) ∧
    ((generateEnhancedMockCoinglassData coin base u1 u2 m4L m4S m24L m24S).totalLiquidations4h =
      (generateEnhancedMockCoinglassData coin base u1 u2 m4L m4S m24L m24S).longLiquidations4h +
      (generateEnhancedMockCoinglassData coin base u1 u2 m4L m4S m24L m24S).shortLiquidations4h) ∧
    ((generateEnhancedMockCoinglassData coin base u1 u2 m4L m4S m24L m24S).totalLiquidations24h =
      (generateEnhancedMockCoinglassData coin base u1 u2 m4L m4S m24L m24S).longLiquidations24h +
      (generateEnhancedMockCoinglassData coin base u1 u2 m4L m4S m24L m24S).shortLiquidations24h) :=
  ⟨rfl, rfl, rfl, rfl, rfl, rfl⟩

/-- C8 counterexample: the catch-path fallback generator extrapolates with
draws from `getRandom(3.2, 4.8)` and `getRandom(18, 28)`.  With a 4h draw of
4.5 (inside the generator's range) and a nonzero 1h leg, the 4h long leg is
1h × 4.5, which no factor in [3.8, 4.2] reproduces. -/
theorem mock_extrapolation_outside_claimed_band :
    ((3.2 : ℚ) ≤ 4.5 ∧ (4.5 : ℚ) ≤ 4.8) ∧
    (generateEnhancedMockCoinglassData "BTCUSDT" 1000000 1 1 4.5 4 20 24).longLiquidations1h
      = 1000000 ∧
    (generateEnhancedMockCoinglassData "BTCUSDT" 1000000 1 1 4.5 4 20 24).longLiquidations4h
      = 4500000 ∧
    ¬ ∃ f : ℚ, 3.8 ≤ f ∧ f ≤ 4.2 ∧
      (generateEnhancedMockCoinglassData "BTCUSDT" 1000000 1 1 4.5 4 20 24).longLiquidations4h =
      (generateEnhancedMockCoinglassData "BTCUSDT" 1000000 1 1 4.5 4 20 24).longLiquidations1h
        * f := by
  refine ⟨by norm_num, by norm_num [generateEnhancedMockCoinglassData],
    by norm_num [generateEnhancedMockCoinglassData], ?_⟩
  rintro ⟨f, hlo, hhi, heq⟩
  rw [show (generateEnhancedMockCoinglassData "BTCUSDT" 1000000 1 1 4.5 4 20 24).longLiquidations4h
      = 4500000 from by norm_num [generateEnhancedMockCoinglassData],
    show (generateEnhancedMockCoinglassData "BTCUSDT" 1000000 1 1 4.5 4 20 24).longLiquidations1h
      = 1000000 from by norm_num [generateEnhancedMockCoinglassData]] at heq
  have hf : f = 4.5 := by linarith
  rw [hf] at hhi
  norm_num at hhi

/-- C8 (amended to the fetcher's non-exception path): once
`getRealCoinglassData` has a 1h base figure, each 4h leg is the 1h leg times
its own `getRandom(3.8, 4.2)` draw and each 24h leg the 1h leg times its own
`getRandom(22, 26)` draw, so whenever the draws lie in those ranges a factor
in [3.8, 4.2] (resp. [22, 26]) exists for every leg, independently for long
and short.  The concrete final conjunct shows the ranges are realisable. -/
theorem real_extrapolation_factors (coin : String)
    (longLiq1h shortLiq1h r4L r4S r24L r24S : ℚ) :
    ((3.8 ≤ r4L ∧ r4L ≤ 4.2 ∧ 3.8 ≤ r4S ∧ r4S ≤ 4.2 ∧
      22 ≤ r24L ∧ r24L ≤ 26 ∧ 22 ≤ r24S ∧ r24S ≤ 26) →
      ((∃ f : ℚ, 3.8 ≤ f ∧ f ≤ 4.2 ∧
          (realCoinglassSnapshot coin longLiq1h shortLiq1h r4L r4S r24L r24S).longLiquidations4h =
          (realCoinglassSnapshot coin longLiq1h shortLiq1h r4L r4S r24L r24S).longLiquidations1h * f) ∧
       (∃ f : ℚ, 3.8 ≤ f ∧ f ≤ 4.2 ∧
          (realCoinglassSnapshot coin longLiq1h shortLiq1h r4L r4S r24L r24S).shortLiquidations4h =
          (realCoinglassSnapshot coin longLiq1h shortLiq1h r4L r4S r24L r24S).shortLiquidations1h * f) ∧
       (∃ f : ℚ, 22 ≤ f ∧ f ≤ 26 ∧
          (realCoinglassSnapshot coin longLiq1h shortLiq1h r4L r4S r24L r24S).longLiquidations24h =
          (realCoinglassSnapshot coin longLiq1h shortLiq1h r4L r4S r24L r24S).longLiquidations1h * f) ∧
       (∃ f : ℚ, 22 ≤ f ∧ f ≤ 26 ∧
          (realCoinglassSnapshot coin longLiq1h shortLiq1h r4L r4S r24L r24S).shortLiquidations24h =
          (realCoinglassSnapshot coin longLiq1h shortLiq1h r4L r4S r24L r24S).shortLiquidations1h * f))) ∧
    (realCoinglassSnapshot "BTCUSDT" 1000 2000 4 4.1 23 25).longLiquidations4h = 4000 := by
  refine ⟨?_, by norm_num [realCoinglassSnapshot]⟩
  rintro ⟨h1, h2, h3, h4, h5, h6, h7, h8⟩
  exact ⟨⟨r4L, h1, h2, rfl⟩, ⟨r4S, h3, h4, rfl⟩, ⟨r24L, h5, h6, rfl⟩, ⟨r24S, h7, h8, rfl⟩⟩

/-- The population variance computed by the breakout indicator is
nonnegative. -/
theorem variance20_nonneg (closes : List ℚ) : 0 ≤ variance20 closes := by
  unfold variance20
  apply div_nonneg
  · apply List.sum_nonneg
    intro x hx
    rcases List.mem_map.1 hx with ⟨c, _, rfl⟩
    positivity
  · exact Nat.cast_nonneg _

/-- Comparing against twice a square root is equivalent to the squared
comparison used by the rational embedding of the breakout indicator. -/
theorem two_sqrt_lt_iff (v d : ℝ) (hv : 0 ≤ v) :
    2 * Real.sqrt v < d ↔ 0 < d ∧ 4 * v < d ^ 2 := by
  constructor
  · intro h
    have hs : 0 ≤ Real.sqrt v := Real.sqrt_nonneg v
    have hd : 0 < d := by linarith
    have h2 : Real.sqrt v < d / 2 := by linarith
    have h3 : v < (d / 2) ^ 2 := (Real.sqrt_lt' (by linarith)).1 h2
    exact ⟨hd, by nlinarith⟩
  · rintro ⟨hd, h4⟩
    have h3 : v < (d / 2) ^ 2 := by nlinarith
    have h2 : Real.sqrt v < d / 2 := (Real.sqrt_lt' (by linarith)).2 h3
    linarith

/-- C6: the volatility-breakout indicator returns NONE on fewer than 20
points; on at least 20 points it returns UP exactly when the latest close
exceeds SMA + 2σ and DOWN exactly when it is below SMA − 2σ, with σ the
population standard deviation (stated over ℝ with the genuine square root).
The concrete conjuncts exhibit 20 closes, constant but for a final value
three standard deviations above the mean, classified UP. -/
theorem bollinger_breakout_bands (closes : List ℚ) :
    (closes.length < 20 → calculateBollingerBreakout closes = Breakout.NONE) ∧
    (20 ≤ closes.length →
      ((calculateBollingerBreakout closes = Breakout.UP ↔
        ((sma20 closes : ℝ) + 2 * Real.sqrt ((variance20 closes : ℚ) : ℝ) <
          ((closes.getLast?.getD 0 : ℚ) : ℝ))) ∧
       (calculateBollingerBreakout closes = Breakout.DOWN ↔
        (((closes.getLast?.getD 0 : ℚ) : ℝ) <
          (sma20 closes : ℝ) - 2 * Real.sqrt ((variance20 closes : ℚ) : ℝ))))) ∧
    calculateBollingerBreakout (List.replicate 19 (100 : ℚ) ++ [120]) = Breakout.UP ∧
    sma20 (List.replicate 19 (100 : ℚ) ++ [120]) = 101 ∧
    variance20 (List.replicate 19 (100 : ℚ) ++ [120]) = 19 ∧
    (101 : ℝ) + 3 * Real.sqrt ((variance20 (List.replicate 19 (100 : ℚ) ++ [120]) : ℚ) : ℝ)
      < 120 := by
  have hsma : sma20 (List.replicate 19 (100 : ℚ) ++ [120]) = 101 := by
    simp [sma20, List.sum_replicate, nsmul_eq_mul]
    norm_num
  have hvar : variance20 (List.replicate 19 (100 : ℚ) ++ [120]) = 19 := by
    unfold variance20
    rw [hsma]
    simp [List.map_replicate, List.sum_replicate, nsmul_eq_mul]
    norm_num
  have hsqrt : Real.sqrt (19 : ℝ) < 19 / 3 := by
    rw [Real.sqrt_lt' (by norm_num)]
    norm_num
  refine ⟨?_, ?_, ?_, hsma, hvar, ?_⟩
  · intro h
    unfold calculateBollingerBreakout
    rw [if_pos h]
  · intro h
    have hv : (0 : ℝ) ≤ ((variance20 closes : ℚ) : ℝ) := by
      exact_mod_cast variance20_nonneg closes
    have hup : calculateBollingerBreakout closes = Breakout.UP ↔
        (0 < closes.getLast?.getD 0 - sma20 closes ∧
          4 * variance20 closes < (closes.getLast?.getD 0 - sma20 closes) ^ 2) := by
      unfold calculateBollingerBreakout
      rw [if_neg (by omega)]
      dsimp only
      split_ifs with hc hd
      · exact iff_of_true rfl hc
      · exact iff_of_false (by decide) hc
      · exact iff_of_false (by decide) hc
    have hdown : calculateBollingerBreakout closes = Breakout.DOWN ↔
        (0 < sma20 closes - closes.getLast?.getD 0 ∧
          4 * variance20 closes < (sma20 closes - closes.getLast?.getD 0) ^ 2) := by
      unfold calculateBollingerBreakout
      rw [if_neg (by omega)]
      dsimp only
      split_ifs with hc hd
      · rcases hc with ⟨h1, h2⟩
        refine iff_of_false (by decide) ?_
        rintro ⟨h3, h4⟩
        exact absurd (by linarith : (0:ℚ) < 0) (lt_irrefl 0)
      · exact iff_of_true rfl hd
      · exact iff_of_false (by decide) hd
    have hcastUp : (0 < closes.getLast?.getD 0 - sma20 closes ∧
        4 * variance20 closes < (closes.getLast?.getD 0 - sma20 closes) ^ 2) ↔
        ((sma20 closes : ℝ) + 2 * Real.sqrt ((variance20 closes : ℚ) : ℝ) <
          ((closes.getLast?.getD 0 : ℚ) : ℝ)) := by
      constructor
      · rintro ⟨h1, h2⟩
        have h1r : (0 : ℝ) < ((closes.getLast?.getD 0 : ℚ) : ℝ) - ((sma20 closes : ℚ) : ℝ) := by
          have := (Rat.cast_lt (K := ℝ)).2 h1
          push_cast at this
          linarith
        have h2r : 4 * ((variance20 closes : ℚ) : ℝ) <
            (((closes.getLast?.getD 0 : ℚ) : ℝ) - ((sma20 closes : ℚ) : ℝ)) ^ 2 := by
          have := (Rat.cast_lt (K := ℝ)).2 h2
          push_cast at this
          linarith
        have := (two_sqrt_lt_iff _ _ hv).2 ⟨h1r, h2r⟩
        linarith
      · intro hlt
        have h0 := (two_sqrt_lt_iff ((variance20 closes : ℚ) : ℝ)
          (((closes.getLast?.getD 0 : ℚ) : ℝ) - ((sma20 closes : ℚ) : ℝ)) hv).1 (by linarith)
        constructor
        · have := h0.1
          rw [show ((closes.getLast?.getD 0 : ℚ) : ℝ) - ((sma20 closes : ℚ) : ℝ) =
              ((closes.getLast?.getD 0 - sma20 closes : ℚ) : ℝ) from by push_cast; ring] at this
          exact_mod_cast this
        · have := h0.2
          rw [show (((closes.getLast?.getD 0 : ℚ) : ℝ) - ((sma20 closes : ℚ) : ℝ)) ^ 2 =
              (((closes.getLast?.getD 0 - sma20 closes) ^ 2 : ℚ) : ℝ) from by push_cast; ring,
            show 4 * ((variance20 closes : ℚ) : ℝ) = ((4 * variance20 closes : ℚ) : ℝ) from by
              push_cast; ring] at this
          exact_mod_cast this
    have hcastDown : (0 < sma20 closes - closes.getLast?.getD 0 ∧
        4 * variance20 closes < (sma20 closes - closes.getLast?.getD 0) ^ 2) ↔
        (((closes.getLast?.getD 0 : ℚ) : ℝ) <
          (sma20 closes : ℝ) - 2 * Real.sqrt ((variance20 closes : ℚ) : ℝ)) := by
      constructor
      · rintro ⟨h1, h2⟩
        have h1r : (0 : ℝ) < ((sma20 closes : ℚ) : ℝ) - ((closes.getLast?.getD 0 : ℚ) : ℝ) := by
          have := (Rat.cast_lt (K := ℝ)).2 h1
          push_cast at this
          linarith
        have h2r : 4 * ((variance20 closes : ℚ) : ℝ) <
            (((sma20 closes : ℚ) : ℝ) - ((closes.getLast?.getD 0 : ℚ) : ℝ)) ^ 2 := by
          have := (Rat.cast_lt (K := ℝ)).2 h2
          push_cast at this
          linarith
        have := (two_sqrt_lt_iff _ _ hv).2 ⟨h1r, h2r⟩
        linarith
      · intro hlt
        have h0 := (two_sqrt_lt_iff ((variance20 closes : ℚ) : ℝ)
          (((sma20 closes : ℚ) : ℝ) - ((closes.getLast?.getD 0 : ℚ) : ℝ)) hv).1 (by linarith)
        constructor
        · have := h0.1
          rw [show ((sma20 closes : ℚ) : ℝ) - ((closes.getLast?.getD 0 : ℚ) : ℝ) =
              ((sma20 closes - closes.getLast?.getD 0 : ℚ) : ℝ) from by push_cast; ring] at this
          exact_mod_cast this
        · have := h0.2
          rw [show (((sma20 closes : ℚ) : ℝ) - ((closes.getLast?.getD 0 : ℚ) : ℝ)) ^ 2 =
              (((sma20 closes - closes.getLast?.getD 0) ^ 2 : ℚ) : ℝ) from by push_cast; ring,
            show 4 * ((variance20 closes : ℚ) : ℝ) = ((4 * variance20 closes : ℚ) : ℝ) from by
              push_cast; ring] at this
          exact_mod_cast this
    exact ⟨hup.trans hcastUp, hdown.trans hcastDown⟩
  · have hlast : (List.replicate 19 (100 : ℚ) ++ [120]).getLast?.getD 0 = 120 := by
      simp
    unfold calculateBollingerBreakout
    rw [if_neg (by simp)]
    dsimp only
    rw [hsma, hvar, hlast, if_pos (by norm_num)]
  · rw [hvar]
    rw [show (((19 : ℚ) : ℝ)) = (19 : ℝ) from by norm_num]
    linarith

/-- C7: the advisory validator returns null exactly when no advisory client
is configured or the capability is disabled; every advisory-call failure is
converted into the deterministic local fallback, whose validity flag is
(confidence ≥ 70), whose advisory confidence equals the signal confidence and
whose risk level is HIGH below 50, MEDIUM below 70 and LOW otherwise; and
every non-null result carries the input news verbatim as its key news. -/
theorem advisory_validator_contract (hasClient aiEnabled : Bool) (outcome : AIOutcome)
    (sig : SignalOutput) (news : List NewsItem) :
    (analyzeSignalWithAI hasClient aiEnabled outcome sig news = none ↔
      (hasClient = false ∨ aiEnabled = false)) ∧
    analyzeSignalWithAI true true AIOutcome.failed sig news =
      some (fallbackAnalysis sig news) ∧
    ((fallbackAnalysis sig news).signalValidation.isValid = true ↔ 70 ≤ sig.confidence) ∧
    (fallbackAnalysis sig news).signalValidation.confidence = sig.confidence ∧
    (fallbackAnalysis sig news).riskAssessment.level =
      (if sig.confidence < 50 then RiskLevel.HIGH
       else if sig.confidence < 70 then RiskLevel.MEDIUM
       else RiskLevel.LOW) ∧
    (∀ a : AIAnalysis, analyzeSignalWithAI hasClient aiEnabled outcome sig news = some a →
      a.newsAnalysis.keyNews = news) := by
  refine ⟨?_, rfl, by simp [fallbackAnalysis], rfl, rfl, ?_⟩
  · cases hasClient <;> cases aiEnabled <;> cases outcome <;>
      simp [analyzeSignalWithAI]
  · intro a ha
    cases hasClient <;> cases aiEnabled <;> cases outcome <;>
      simp [analyzeSignalWithAI] at ha <;>
      simp [← ha, fallbackAnalysis]

/-- One step of the correspondence between a pushed-facts block and the
filter of its (condition, fact) table. -/
theorem fact_filter_cons (p : Bool) (s : String) (ts : List (Bool × String)) :
    (((p, s) :: ts).filter Prod.fst).map Prod.snd =
      (if p = true then [s] else []) ++ (ts.filter Prod.fst).map Prod.snd := by
  cases p <;> simp [List.filter_cons]

/-- C9 (amended to the six criteria per side that push a fact): the trend
summary is the bullish facts block followed by the bearish facts block, and
each block holds exactly one fact per true condition of its six-entry
(condition, fact) table, in table order — the long/short-ratio and
liquidation-ratio criteria of the eight-entry scoring vectors push no fact. -/
theorem trend_summary_facts (b : BinanceData) (c : CoinglassData) (s : NewsSentiment) :
    (generateSignal b c s).trendSummary = bullishFacts b c ++ bearishFacts b c ∧
    bullishFacts b c = ((bullishFactTable b c).filter Prod.fst).map Prod.snd ∧
    bearishFacts b c = ((bearishFactTable b c).filter Prod.fst).map Prod.snd ∧
    (bullishFacts b c).length = (bullishFactTable b c).countP Prod.fst ∧
    (bearishFacts b c).length = (bearishFactTable b c).countP Prod.fst := by
  have hbull : bullishFacts b c = ((bullishFactTable b c).filter Prod.fst).map Prod.snd := by
    unfold bullishFacts bullishFactTable
    simp only [fact_filter_cons, decide_eq_true_eq, List.filter_nil, List.map_nil,
      List.append_nil]
    simp [List.append_assoc]
  have hbear : bearishFacts b c = ((bearishFactTable b c).filter Prod.fst).map Prod.snd := by
    unfold bearishFacts bearishFactTable
    simp only [fact_filter_cons, decide_eq_true_eq, List.filter_nil, List.map_nil,
      List.append_nil]
    simp [List.append_assoc]
  refine ⟨rfl, hbull, hbear, ?_, ?_⟩
  · rw [hbull, List.countP_eq_length_filter, List.length_map]
  · rw [hbear, List.countP_eq_length_filter, List.length_map]

/-- A market snapshot with every label neutral, zero funding and long/short
ratio 0.5, so that exactly one bullish criterion (ratio < 0.8) holds. -/
def quietMarket : BinanceData :=
  { coin := "XUSDT", currentPrice := 1, volume := 0, openInterest := 0,
    fundingRate := 0, longShortRatio := 0.5, deltaVolume := 0,
    trend5min := .NEUTRAL, trend15min := .NEUTRAL,
    bollingerBandBreakout := .NONE, emaCrossover := .NONE }

/-- A liquidation snapshot with equal 1h legs (ratio 1) and no spike. -/
def evenLiquidation : CoinglassData :=
  { coin := "XUSDT", totalLiquidations1h := 2000, longLiquidations1h := 1000,
    shortLiquidations1h := 1000, totalLiquidations4h := 8000,
    longLiquidations4h := 4000, shortLiquidations4h := 4000,
    totalLiquidations24h := 48000, longLiquidations24h := 24000,
    shortLiquidations24h := 24000, liquidationSpike := .NONE }

/-- C9 counterexample: on a snapshot whose only true criterion is the
long/short ratio (bullish criterion count 1), the trend summary is empty —
so the summary does not contain one fact for each true entry of the
eight-entry criterion vectors. -/
theorem ratio_criterion_pushes_no_fact :
    bullishCount quietMarket evenLiquidation = 1 ∧
    (generateSignal quietMarket evenLiquidation .NEUTRAL).trendSummary = [] := by
  constructor
  · norm_num [bullishCount, bullishSignals, liquidationRatio, liqRatio1h,
      quietMarket, evenLiquidation] <;> decide
  · norm_num [generateSignal, bullishFacts, bearishFacts, quietMarket, evenLiquidation]
    decide

/-- C10: the long/short liquidation ratio is always computed with the
denominator max(short 1h, 1), which is positive, so the ratio is a
well-defined rational (multiplying back by the denominator recovers the
numerator exactly, and a zero short leg gives ratio = long); the two
ratio-based scoring criteria read exactly this ratio. -/
theorem ratio_denominator_guard (b : BinanceData) (c : CoinglassData)
    (longLiq shortLiq : ℚ) :
    (0 : ℚ) < max shortLiq 1 ∧
    liqRatio1h longLiq shortLiq * max shortLiq 1 = longLiq ∧
    (shortLiq = 0 → liqRatio1h longLiq shortLiq = longLiq) ∧
    liquidationRatio c = liqRatio1h c.longLiquidations1h c.shortLiquidations1h ∧
    (bullishSignals b c)[7]? = some (decide (liquidationRatio c < 0.5)) ∧
    (bearishSignals b c)[7]? = some (decide (2 < liquidationRatio c)) := by
  have hpos : (0 : ℚ) < max shortLiq 1 := lt_of_lt_of_le one_pos (le_max_right _ _)
  refine ⟨hpos, ?_, ?_, rfl, rfl, rfl⟩
  · unfold liqRatio1h
    exact div_mul_cancel₀ _ (ne_of_gt hpos)
  · intro h
    simp [liqRatio1h, h]

end CryptoSignal
